import Mathlib

/-!
Verification of the inference-deployment orchestrator
(`modules/platform_connector.py`, `modules/mlflow_connector.py`,
`modules/resources.py`) against its natural-language specification.

Python strings are modelled as `List Char`; Python `str.split`,
substring containment (`in`), `str.lower` and dict/environment lookups
are embedded below with Python semantics.  Fallible Python code is
embedded as `Except PyExc`, where `PyExc` distinguishes the exception
classes the source raises or catches.
-/

abbrev Str := List Char

/-- Python substring containment: `pat in s`. -/
def containsSub (s pat : Str) : Bool :=
  match s with
  | [] => decide (pat = [])
  | _ :: t => pat.isPrefixOf s || containsSub t pat

/-- Python `s.split(":")` (single-character separator). -/
def splitOnColon : Str → List Str
  | [] => [[]]
  | c :: rest =>
    if c = ':' then [] :: splitOnColon rest
    else
      match splitOnColon rest with
      | [] => [[c]]
      | h :: t => (c :: h) :: t

/-- Python `s.split("::")` (two-character separator, leftmost
non-overlapping occurrences). -/
def splitOnDColon : Str → List Str
  | [] => [[]]
  | [c] => [[c]]
  | c1 :: c2 :: rest =>
    if c1 = ':' ∧ c2 = ':' then [] :: splitOnDColon rest
    else
      match splitOnDColon (c2 :: rest) with
      | [] => [[c1]]
      | h :: t => (c1 :: h) :: t

/-- Python `s.lower()` (ASCII, which is all the source uses). -/
def pyLower (s : Str) : Str := s.map Char.toLower

/-- Python truthiness of an optional string: `None` and `""` are falsy. -/
def pyTruthy : Option Str → Bool
  | none => false
  | some s => decide (s ≠ [])

/-- Python `dict.get` / `os.environ.get` over an association list. -/
def envLookup : List (Str × Str) → Str → Option Str
  | [], _ => none
  | (k, v) :: rest, key => if k = key then some v else envLookup rest key

/-- The Python exception classes the embedded code raises or catches. -/
inductive PyExc where
  | valueError (msg : Str)
  | typeError (msg : Str)
  | keyError (key : Str)
  | runtimeError (msg : Str)
  | assertionError
  | illegalArgumentError (msg : Str)
  | attributeError (msg : Str)
  | otherError (msg : Str)
deriving DecidableEq, Repr

def PyExc.isTypeError : PyExc → Bool
  | .typeError _ => true
  | _ => false

/-! ## resources.py -/

/-- `InferenceServerType` enumeration (`resources.py`). -/
inductive InferenceServerType where
  | NONE
  | TRITON
  | MLFLOW
deriving DecidableEq, Repr

/-- The `.value` of each enum member. -/
def InferenceServerType.value : InferenceServerType → Str
  | .NONE => "none".data
  | .TRITON => "Triton".data
  | .MLFLOW => "MLFlow".data

/-- Python enum construction `InferenceServerType(s)`: succeeds exactly on
a member value, otherwise `ValueError`. -/
def InferenceServerType.fromValue (s : Str) : Option InferenceServerType :=
  if s = "none".data then some .NONE
  else if s = "Triton".data then some .TRITON
  else if s = "MLFlow".data then some .MLFLOW
  else none

/-- The fields of an `apolo_sdk.JobDescription` the orchestrator reads. -/
structure JobDescription where
  id : Str
  jobName : Option Str
  tags : List Str
  containerEnv : List (Str × Str)
  internalHostnameNamed : Option Str
  internalHostname : Option Str
  httpPort : Option Nat
deriving DecidableEq, Repr

/-- `ModelInfo` record (`resources.py`): (name, stage, version). -/
structure ModelInfo where
  name : Str
  stage : Str
  version : Str
deriving DecidableEq, Repr

/-- `InferenceServerInfo`: a job plus its classified server type. -/
structure InferenceServerInfo where
  job : JobDescription
  type : InferenceServerType
deriving DecidableEq, Repr

def TRITON_MODEL_REPO_key : Str := "TRITON_MODEL_REPO".data

def TRITON_URL_key : Str := "TRITON_URL".data

/-- `TritonServerInfo.model_repository_path`
(`resources.py` lines 159-161): reads
`job_description.container.env["TRITON_MODEL_REPO"]`; a missing key is a
Python `KeyError`. -/
def model_repository_path (job : JobDescription) : Except PyExc Str :=
  match envLookup job.containerEnv TRITON_MODEL_REPO_key with
  | some p => .ok p
  | none => .error (.keyError TRITON_MODEL_REPO_key)

/-- `TritonServerInfo.internal_hostname` (`resources.py`): the named
hostname `or` the plain one, asserting the result is truthy. -/
def internal_hostname (job : JobDescription) : Except PyExc Str :=
  let result :=
    if pyTruthy job.internalHostnameNamed then job.internalHostnameNamed
    else job.internalHostname
  match result with
  | some h => if h = [] then .error .assertionError else .ok h
  | none => .error .assertionError

/-- `TritonServerInfo.port` (`resources.py`): `container.http.port`;
`http` being absent is an `AttributeError` (the source ignores the type
checker there). -/
def serverPort (job : JobDescription) : Except PyExc Nat :=
  match job.httpPort with
  | some p => .ok p
  | none => .error (.attributeError "port".data)

def natToStr (n : Nat) : Str := (toString n).data

/-- The value installed for `TRITON_URL` in
`set_triton_server_cofig`: `http://<internal_hostname>:<port>`. -/
def tritonUrlOf (job : JobDescription) : Except PyExc Str :=
  match internal_hostname job with
  | .error e => .error e
  | .ok h =>
    match serverPort job with
    | .error e => .error e
    | .ok p => .ok ("http://".data ++ h ++ ":".data ++ natToStr p)

/-! ## platform_connector.py: tag codec -/

def ownershipTag : Str := "in-job-deployments::inference-server".data

def serverTypePrefix : Str := "server-type::".data

def modelInfoPrefix : Str := "model-info::".data

/-- `InferenceRunner.get_server_tags` (`platform_connector.py` lines
54-64): the ownership tag, then optionally the server-type tag, then
optionally the model-info tag. -/
def get_server_tags (inferenceType : Option InferenceServerType)
    (model : Option ModelInfo) : List Str :=
  [ownershipTag]
    ++ (match inferenceType with
        | some t => [serverTypePrefix ++ t.value]
        | none => [])
    ++ (match model with
        | some m =>
          [modelInfoPrefix ++ m.name ++ ":".data ++ m.stage ++ ":".data
            ++ m.version]
        | none => [])

def unpackMsg : Str := "values to unpack".data

/-- `InferenceRunner.get_inference_server_type` (`platform_connector.py`
lines 66-75): scan the tags in order for the first containing
`server-type::`, split it on `::` (a two-element unpack, `ValueError`
otherwise), and build the enum member from the value (`ValueError` for an
unknown value); no matching tag is a `ValueError`. -/
def get_inference_server_type (tags : List Str) (jobId : Str) :
    Except PyExc InferenceServerType :=
  match tags with
  | [] => .error (.valueError ("Server info not found in job ".data ++ jobId))
  | tag :: rest =>
    if containsSub tag serverTypePrefix then
      match splitOnDColon tag with
      | [_, serverType] =>
        match InferenceServerType.fromValue serverType with
        | some t => .ok t
        | none => .error (.valueError (serverType ++ " is not a valid InferenceServerType".data))
      | _ => .error (.valueError unpackMsg)
    else get_inference_server_type rest jobId

/-- The tag-scanning core of `InferenceRunner.get_mlflow_model_info`
(`platform_connector.py` lines 83-99): first tag containing
`model-info::`, split on `::` (two-element unpack), split the value on
`:` (three-element unpack into name, stage, version). -/
def get_mlflow_model_info_scan (tags : List Str) (jobId : Str) :
    Except PyExc ModelInfo :=
  match tags with
  | [] => .error (.valueError ("Model info not found in job ".data ++ jobId))
  | tag :: rest =>
    if containsSub tag modelInfoPrefix then
      match splitOnDColon tag with
      | [_, modelInfoTag] =>
        match splitOnColon modelInfoTag with
        | [name, stage, version] => .ok ⟨name, stage, version⟩
        | _ => .error (.valueError unpackMsg)
      | _ => .error (.valueError unpackMsg)
    else get_mlflow_model_info_scan rest jobId

/-- `InferenceRunner.get_mlflow_model_info` with its leading
`assert server_info.type == InferenceServerType.MLFLOW`. -/
def get_mlflow_model_info (serverInfo : InferenceServerInfo) :
    Except PyExc ModelInfo :=
  if serverInfo.type = InferenceServerType.MLFLOW then
    get_mlflow_model_info_scan serverInfo.job.tags serverInfo.job.id
  else .error .assertionError

/-- `InferenceRunner._list_active_inference_servers`
(`platform_connector.py` lines 118-139), applied to the sequence of jobs
the fabric query returns: per job, attempt the type decode; a
`ValueError` is logged and the job skipped; any other exception would
propagate and abort the listing. -/
def list_active_inference_servers (jobs : List JobDescription) :
    Except PyExc (List InferenceServerInfo) :=
  match jobs with
  | [] => .ok []
  | j :: rest =>
    match get_inference_server_type j.tags j.id with
    | .ok t =>
      match list_active_inference_servers rest with
      | .ok l => .ok (⟨j, t⟩ :: l)
      | .error e => .error e
    | .error (.valueError _) => list_active_inference_servers rest
    | .error e => .error e

example : get_inference_server_type
    (get_server_tags (some .TRITON) (some ⟨"a".data, "b".data, "c".data⟩))
    "j".data = .ok .TRITON := by rfl

example : get_mlflow_model_info_scan
    (get_server_tags (some .MLFLOW) (some ⟨"a".data, "b".data, "c".data⟩))
    "j".data = .ok ⟨"a".data, "b".data, "c".data⟩ := by rfl

example : get_mlflow_model_info_scan
    (get_server_tags (some .MLFLOW) (some ⟨"a".data, [], "c".data⟩))
    "j".data = .error (.valueError unpackMsg) := by rfl

/-! ## mlflow_connector.py: ambient configuration and deployment -/

/-- The two ambient environment variables
`set_triton_server_cofig` manipulates. -/
structure PyEnv where
  tritonUrl : Option Str
  tritonModelRepo : Option Str
deriving DecidableEq, Repr

/-- Process state threaded through the embedded connector code: the
ambient environment plus an instrumentation counter of network calls
performed so far. -/
structure PyState where
  env : PyEnv
  netCalls : Nat
deriving DecidableEq, Repr

/-- The restore step for one variable (`mlflow_connector.py` lines
93-101): `if old: os.environ[k] = old else: os.environ.pop(k)`.  A truthy
(non-empty) old value is written back; otherwise the variable is popped,
which is a `KeyError` when it is absent. -/
def restoreVar (old cur : Option Str) (key : Str) : Except PyExc (Option Str) :=
  if pyTruthy old then .ok old
  else
    match cur with
    | some _ => .ok none
    | none => .error (.keyError key)

/-- `MLFlowConnector.set_triton_server_cofig` (`mlflow_connector.py`
lines 68-101), a `@contextmanager` generator with no `try/finally`:
assert the shared repository path exists (resolving it may raise
`KeyError`), capture the prior values of `TRITON_URL` and
`TRITON_MODEL_REPO`, install the server endpoint and path, run the body;
on normal return of the body, restore the captured values; when the body
raises, the code after `yield` never runs, so the exception propagates
with the installed values still in place. -/
def set_triton_server_cofig (job : JobDescription) (pathExists : Str → Bool)
    (action : PyState → Except (PyExc × PyState) PyState) (s : PyState) :
    Except (PyExc × PyState) PyState :=
  match model_repository_path job with
  | .error e => .error (e, s)
  | .ok repo =>
    if pathExists repo then
      let old_triton_url := s.env.tritonUrl
      let old_triton_model_repo := s.env.tritonModelRepo
      match tritonUrlOf job with
      | .error e => .error (e, s)
      | .ok url =>
        let s1 : PyState := { s with env := ⟨some url, some repo⟩ }
        match action s1 with
        | .error (e, s2) => .error (e, s2)
        | .ok s2 =>
          match restoreVar old_triton_url s2.env.tritonUrl TRITON_URL_key with
          | .error e => .error (e, s2)
          | .ok u =>
            let s3 : PyState := { s2 with env := { s2.env with tritonUrl := u } }
            match restoreVar old_triton_model_repo s3.env.tritonModelRepo
                TRITON_MODEL_REPO_key with
            | .error e => .error (e, s3)
            | .ok r => .ok { s3 with env := { s3.env with tritonModelRepo := r } }
    else .error (.assertionError, s)

/-- The external collaborators `MLFlowConnector.deploy_triton` touches:
whether the shared path exists on the calling side, and the registry
adapter network call `create_deployment` (returning the deployment dict
or raising). -/
structure ConnectorWorld where
  pathExists : Str → Bool
  createDeployment : Str → Str → Str → Except PyExc (List (Str × Str))

/-- The body of the `with` block in `MLFlowConnector.deploy_triton`
(`mlflow_connector.py` lines 110-118): one network call to
`create_deployment`; a result whose `name` entry does not echo the
requested deployment name is a `RuntimeError` raised inside the context
scope. -/
def deploy_triton_body (w : ConnectorWorld)
    (deploymentName modelUri flavor : Str) (s : PyState) :
    Except (PyExc × PyState) PyState :=
  let s1 : PyState := { s with netCalls := s.netCalls + 1 }
  match w.createDeployment deploymentName modelUri flavor with
  | .error e => .error (e, s1)
  | .ok deployment =>
    if (envLookup deployment "name".data).getD [] = deploymentName then .ok s1
    else .error (.runtimeError ("Deployment failed: ".data ++ deploymentName), s1)

/-- `MLFlowConnector.deploy_triton` (`mlflow_connector.py` lines
103-120): enter `set_triton_server_cofig` for the target server and run
the registration body inside it. -/
def MLFlowConnector_deploy_triton (w : ConnectorWorld) (job : JobDescription)
    (deploymentName modelUri flavor : Str) (s : PyState) :
    Except (PyExc × PyState) PyState :=
  set_triton_server_cofig job w.pathExists
    (deploy_triton_body w deploymentName modelUri flavor) s

/-! ## platform_connector.py: deployment state machines -/

/-- Job status as far as the polling loops observe it (the fabric's
status taxonomy, reduced to the `is_pending` distinction the source
reads). -/
inductive JobStatusM where
  | pending
  | running
  | succeeded
  | failed
  | cancelled
deriving DecidableEq, Repr

def JobStatusM.isPending : JobStatusM → Bool
  | .pending => true
  | _ => false

/-- The polling loop shared by `_deploy_mlflow` (lines 290-292) and
`_deploy_triton_server` (lines 338-340):
`while job_descr.status.is_pending: job_descr = await status(...)`.
`statuses i` is the status observed at the i-th poll (`statuses 0` comes
from the submission itself); the fuel argument bounds how many refetches
we unroll, `none` meaning the loop is still spinning after that many. -/
def pollFrom (statuses : Nat → JobStatusM) (i : Nat) : Nat → Option JobStatusM
  | 0 => if (statuses i).isPending then none else some (statuses i)
  | fuel + 1 =>
    if (statuses i).isPending then pollFrom statuses (i + 1) fuel
    else some (statuses i)

/-- Outcome of the fabric submission `jobs.start`: a started job with its
subsequently observed status stream, the `IllegalArgumentError` raised on
a name collision, or any other exception. -/
inductive SubmitOutcome where
  | started (job : JobDescription) (statuses : Nat → JobStatusM)
  | illegalArgument (msg : Str)
  | raised (e : PyExc)

/-- `InferenceRunner._deploy_triton_server` (`platform_connector.py`
lines 296-344): on `IllegalArgumentError` display the collision message
and return `None`; on any other submission exception the exception
propagates; otherwise poll until the job leaves the pending state and
return the server handle.  The outer `Option` is the fuel bound on the
unbounded poll loop (`none` = still polling). -/
def deploy_triton_server (submit : SubmitOutcome) (fuel : Nat) :
    Option (Except PyExc (Option JobDescription)) :=
  match submit with
  | .illegalArgument _ => some (.ok none)
  | .raised e => some (.error e)
  | .started job statuses =>
    (pollFrom statuses 0 fuel).map (fun _ => .ok (some job))

/-- `InferenceRunner._deploy_mlflow` (`platform_connector.py` lines
250-294): same shape, but a name collision only displays an error and
the call returns normally. -/
def deploy_mlflow_job (submit : SubmitOutcome) (fuel : Nat) :
    Option (Except PyExc Unit) :=
  match submit with
  | .illegalArgument _ => some (.ok ())
  | .raised e => some (.error e)
  | .started _ statuses =>
    (pollFrom statuses 0 fuel).map (fun _ => .ok ())

/-! ## Registry locators (C8) and deployment error reporting (C9) -/

/-- The model URI constructed by `MLFlowConnector.get_registered_models`
(`mlflow_connector.py` line 50): `models:/<name>/<current_stage>`.  This
is the `uri` field of a `ModelStage`, and `MLFlowConnector.deploy_triton`
passes `str(model.uri)` as the registration model URI. -/
def model_stage_uri (name stage : Str) : Str :=
  "models:/".data ++ name ++ "/".data ++ stage

/-- The registry locator interpolated into the serving command by
`InferenceRunner._deploy_mlflow` (`platform_connector.py` line 277):
`models:/<name>/<stage.lower()>`. -/
def mlflow_serve_locator (name stage : Str) : Str :=
  "models:/".data ++ name ++ "/".data ++ pyLower stage

/-- The full command string of `_deploy_mlflow` (lines 274-279), which
embeds `mlflow_serve_locator`. -/
def mlflow_serve_command (name stage : Str) : Str :=
  "-c \"source /root/.bashrc && mlflow models serve -m ".data
    ++ mlflow_serve_locator name stage
    ++ " --host=0.0.0.0 --port=5000 --env-manager conda\"".data

/-- Messages written to the Streamlit display container. -/
inductive DisplayMsg where
  | info (msg : Str)
  | success (msg : Str)
  | errorMsg (msg : Str)
deriving DecidableEq, Repr

def DisplayMsg.isError : DisplayMsg → Bool
  | .errorMsg _ => true
  | _ => false

def joinErrPat : Str := "join() argument must be str, bytes,".data

def flavorMismatchMsg : Str :=
  "Could only deploy Triton or ONNX model to Triton inference server. Verify model flawors.".data

/-- The try/except reporting block of `InferenceRunner.deploy_triton`
(`platform_connector.py` lines 231-248), as a function of the outcome of
the registration call: on success a success message; on `TypeError`,
an error message only when the exception text contains the known join()
pattern (nothing is displayed otherwise); on any other exception the
catch-all error message. -/
def deploy_triton_report (modelUri : Str) (outcome : Except PyExc Unit) :
    List DisplayMsg :=
  DisplayMsg.info ("Deploying ".data ++ modelUri) ::
    (match outcome with
     | .ok _ => [.success "Model deployed!".data]
     | .error (.typeError msg) =>
       if containsSub msg joinErrPat then [.errorMsg flavorMismatchMsg] else []
     | .error e =>
       [.errorMsg ("Unable to deploy model".data ++
         (match e with
          | .valueError m => m
          | .typeError m => m
          | .keyError k => k
          | .runtimeError m => m
          | .assertionError => []
          | .illegalArgumentError m => m
          | .attributeError m => m
          | .otherError m => m))])

/-! ## String lemmas -/

theorem containsSub_prefix (pat rest : Str) (h : pat ≠ []) :
    containsSub (pat ++ rest) pat = true := by
  cases pat with
  | nil => exact absurd rfl h
  | cons c p =>
    show containsSub (c :: (p ++ rest)) (c :: p) = true
    have hp : (c :: p).isPrefixOf (c :: p ++ rest) = true := by
      simp [List.isPrefixOf_iff_prefix]
    simp only [containsSub, List.cons_append] at hp ⊢
    simp [hp]

theorem splitOnColon_no_colon (v : Str) (h : ':' ∉ v) :
    splitOnColon v = [v] := by
  induction v with
  | nil => rfl
  | cons c rest ih =>
    have hc : ¬ c = ':' := fun hcc => h (hcc ▸ List.mem_cons_self c rest)
    have hrest : ':' ∉ rest := fun hm => h (List.mem_cons_of_mem c hm)
    show splitOnColon (c :: rest) = [c :: rest]
    simp only [splitOnColon]
    rw [if_neg hc, ih hrest]

theorem splitOnColon_append (a b : Str) (h : ':' ∉ a) :
    splitOnColon (a ++ ':' :: b) = a :: splitOnColon b := by
  induction a with
  | nil =>
    show splitOnColon (':' :: b) = [] :: splitOnColon b
    simp [splitOnColon]
  | cons c a' ih =>
    have hc : ¬ c = ':' := fun hcc => h (hcc ▸ List.mem_cons_self c a')
    have ha' : ':' ∉ a' := fun hm => h (List.mem_cons_of_mem c hm)
    show splitOnColon (c :: (a' ++ ':' :: b)) = (c :: a') :: splitOnColon b
    simp only [splitOnColon]
    rw [if_neg hc, ih ha']

theorem splitOnColon_triple (name stage version : Str)
    (h1 : ':' ∉ name) (h2 : ':' ∉ stage) (h3 : ':' ∉ version) :
    splitOnColon (name ++ (':' :: (stage ++ (':' :: version))))
      = [name, stage, version] := by
  rw [splitOnColon_append name (stage ++ (':' :: version)) h1,
    splitOnColon_append stage version h2, splitOnColon_no_colon version h3]

theorem splitOnDColon_step (c1 c2 : Char) (rest : Str) (h : Str)
    (t : List Str) (hne : ¬ (c1 = ':' ∧ c2 = ':'))
    (hrec : splitOnDColon (c2 :: rest) = h :: t) :
    splitOnDColon (c1 :: c2 :: rest) = (c1 :: h) :: t := by
  simp only [splitOnDColon]
  rw [if_neg hne, hrec]

theorem splitOnDColon_no_colon : ∀ (v : Str), ':' ∉ v → splitOnDColon v = [v]
  | [] => fun _ => rfl
  | [_] => fun _ => rfl
  | c1 :: c2 :: rest => by
    intro h
    have hc1 : ¬ c1 = ':' := fun hcc => h (hcc ▸ List.mem_cons_self c1 _)
    have htail : ':' ∉ c2 :: rest := fun hm => h (List.mem_cons_of_mem c1 hm)
    have ih := splitOnDColon_no_colon (c2 :: rest) htail
    exact splitOnDColon_step c1 c2 rest _ _ (fun hand => hc1 hand.1) ih

theorem splitOnDColon_single (stage version : Str)
    (h2 : ':' ∉ stage) (h3 : ':' ∉ version) :
    splitOnDColon (stage ++ (':' :: version)) = [stage ++ (':' :: version)] := by
  induction stage with
  | nil =>
    cases version with
    | nil => rfl
    | cons e v' =>
      have he : ¬ e = ':' := fun hcc => h3 (hcc ▸ List.mem_cons_self e v')
      have ih := splitOnDColon_no_colon (e :: v') h3
      exact splitOnDColon_step ':' e v' _ _ (fun hand => he hand.2) ih
  | cons d stage' ih =>
    have hd : ¬ d = ':' := fun hcc => h2 (hcc ▸ List.mem_cons_self d stage')
    have hs' : ':' ∉ stage' := fun hm => h2 (List.mem_cons_of_mem d hm)
    have ihr := ih hs'
    show splitOnDColon (d :: (stage' ++ (':' :: version)))
      = [d :: (stage' ++ (':' :: version))]
    cases hst : stage' ++ (':' :: version) with
    | nil => exact absurd hst (by simp)
    | cons x xs =>
      rw [hst] at ihr
      exact splitOnDColon_step d x xs _ _ (fun hand => hd hand.1) ihr

theorem splitOnDColon_value (name stage version : Str)
    (h1 : ':' ∉ name) (h2 : ':' ∉ stage) (h3 : ':' ∉ version)
    (hs : stage ≠ []) :
    splitOnDColon (name ++ (':' :: (stage ++ (':' :: version))))
      = [name ++ (':' :: (stage ++ (':' :: version)))] := by
  induction name with
  | nil =>
    cases stage with
    | nil => exact absurd rfl hs
    | cons d stage' =>
      have hd : ¬ d = ':' := fun hcc => h2 (hcc ▸ List.mem_cons_self d stage')
      have htail := splitOnDColon_single (d :: stage') version h2 h3
      have htail' : splitOnDColon (d :: (stage' ++ (':' :: version)))
          = [d :: (stage' ++ (':' :: version))] := by simpa using htail
      show splitOnDColon (':' :: (d :: (stage' ++ (':' :: version))))
        = [':' :: (d :: (stage' ++ (':' :: version)))]
      exact splitOnDColon_step ':' d (stage' ++ (':' :: version)) _ _
        (fun hand => hd hand.2) htail'
  | cons c name' ih =>
    have hc : ¬ c = ':' := fun hcc => h1 (hcc ▸ List.mem_cons_self c name')
    have hn' : ':' ∉ name' := fun hm => h1 (List.mem_cons_of_mem c hm)
    have ihr := ih hn'
    show splitOnDColon (c :: (name' ++ (':' :: (stage ++ (':' :: version)))))
      = [c :: (name' ++ (':' :: (stage ++ (':' :: version))))]
    cases hst : name' ++ (':' :: (stage ++ (':' :: version))) with
    | nil => exact absurd hst (by simp)
    | cons x xs =>
      rw [hst] at ihr
      exact splitOnDColon_step c x xs _ _ (fun hand => hc hand.1) ihr

theorem colon_data : ":".data = [':'] := rfl

theorem splitOnDColon_modelInfoPrefix (v : Str) (hv : splitOnDColon v = [v]) :
    splitOnDColon (modelInfoPrefix ++ v) = ["model-info".data, v] := by
  have s0 : splitOnDColon (':' :: ':' :: v) = [] :: splitOnDColon v := by
    simp only [splitOnDColon]
    rw [if_pos (by decide)]
  rw [hv] at s0
  have s1 := splitOnDColon_step 'o' ':' (':' :: v) _ _ (by decide) s0
  have s2 := splitOnDColon_step 'f' 'o' (':' :: ':' :: v) _ _ (by decide) s1
  have s3 := splitOnDColon_step 'n' 'f' ('o' :: ':' :: ':' :: v) _ _ (by decide) s2
  have s4 := splitOnDColon_step 'i' 'n' ('f' :: 'o' :: ':' :: ':' :: v) _ _
    (by decide) s3
  have s5 := splitOnDColon_step '-' 'i'
    ('n' :: 'f' :: 'o' :: ':' :: ':' :: v) _ _ (by decide) s4
  have s6 := splitOnDColon_step 'l' '-'
    ('i' :: 'n' :: 'f' :: 'o' :: ':' :: ':' :: v) _ _ (by decide) s5
  have s7 := splitOnDColon_step 'e' 'l'
    ('-' :: 'i' :: 'n' :: 'f' :: 'o' :: ':' :: ':' :: v) _ _ (by decide) s6
  have s8 := splitOnDColon_step 'd' 'e'
    ('l' :: '-' :: 'i' :: 'n' :: 'f' :: 'o' :: ':' :: ':' :: v) _ _
    (by decide) s7
  have s9 := splitOnDColon_step 'o' 'd'
    ('e' :: 'l' :: '-' :: 'i' :: 'n' :: 'f' :: 'o' :: ':' :: ':' :: v) _ _
    (by decide) s8
  have s10 := splitOnDColon_step 'm' 'o'
    ('d' :: 'e' :: 'l' :: '-' :: 'i' :: 'n' :: 'f' :: 'o' :: ':' :: ':' :: v)
    _ _ (by decide) s9
  exact s10

theorem model_scan_skip (tag : Str) (rest : List Str) (jid : Str)
    (h : containsSub tag modelInfoPrefix = false) :
    get_mlflow_model_info_scan (tag :: rest) jid
      = get_mlflow_model_info_scan rest jid := by
  simp only [get_mlflow_model_info_scan]
  rw [if_neg (by simp [h])]

theorem type_scan_skip (tag : Str) (rest : List Str) (jid : Str)
    (h : containsSub tag serverTypePrefix = false) :
    get_inference_server_type (tag :: rest) jid
      = get_inference_server_type rest jid := by
  simp only [get_inference_server_type]
  rw [if_neg (by simp [h])]

/-! ## Claims -/

/-- Claim C2 (amended): for every server type and every model identity
whose name, stage and version contain no colon, and whose stage is
non-empty, decoding the tag set produced by `get_server_tags` returns the
encoded type, and decoding the model identity from that tag set returns
the same (name, stage, version) triple.  (An empty stage makes the
model-info value contain `::`, so the two-element unpack in
`get_mlflow_model_info` raises `ValueError`.) -/
theorem tag_codec_roundtrip (t : InferenceServerType) (m : ModelInfo)
    (jid : Str) (h1 : ':' ∉ m.name) (h2 : ':' ∉ m.stage)
    (h3 : ':' ∉ m.version) (hs : m.stage ≠ []) :
    get_inference_server_type (get_server_tags (some t) (some m)) jid
        = .ok t
    ∧ get_mlflow_model_info_scan (get_server_tags (some t) (some m)) jid
        = .ok m := by
  obtain ⟨name, stage, version⟩ := m
  refine ⟨?_, ?_⟩
  · cases t <;> rfl
  · have hv := splitOnDColon_value name stage version h1 h2 h3 hs
    have hsplit := splitOnDColon_modelInfoPrefix
      (name ++ (':' :: (stage ++ (':' :: version)))) hv
    have hcont := containsSub_prefix modelInfoPrefix
      (name ++ (':' :: (stage ++ (':' :: version)))) (by decide)
    have hcol := splitOnColon_triple name stage version h1 h2 h3
    cases t <;>
      (simp only [get_server_tags, InferenceServerType.value, colon_data,
        List.append_assoc, List.singleton_append, List.cons_append,
        List.nil_append]
       rw [model_scan_skip _ _ _ (by decide), model_scan_skip _ _ _ (by decide)]
       simp [get_mlflow_model_info_scan, hcont, hsplit, hcol])

/-- Witness for C2 (amended): the round trip evaluated at the concrete
identity (alpha, Staging, 3) under the Triton type. -/
theorem tag_codec_roundtrip_witness :
    get_inference_server_type
        (get_server_tags (some .TRITON)
          (some ⟨"alpha".data, "Staging".data, "3".data⟩)) "job-x".data
      = .ok .TRITON
    ∧ get_mlflow_model_info_scan
        (get_server_tags (some .TRITON)
          (some ⟨"alpha".data, "Staging".data, "3".data⟩)) "job-x".data
      = .ok ⟨"alpha".data, "Staging".data, "3".data⟩ :=
  tag_codec_roundtrip .TRITON ⟨"alpha".data, "Staging".data, "3".data⟩
    "job-x".data (by decide) (by decide) (by decide) (by decide)

/-- Counterexample to C2 as stated: the identity (a, empty stage, b) has
no colon in any field, yet decoding the model identity from its encoded
tag set raises `ValueError` (the tag value `a::b` splits on `::` into
three parts, so the two-element unpack fails) instead of returning the
triple. -/
theorem tag_codec_roundtrip_cex :
    get_mlflow_model_info_scan
        (get_server_tags (some .MLFLOW) (some ⟨"a".data, [], "b".data⟩))
        "j".data
      = .error (.valueError unpackMsg)
    ∧ get_mlflow_model_info_scan
        (get_server_tags (some .MLFLOW) (some ⟨"a".data, [], "b".data⟩))
        "j".data
      ≠ .ok ⟨"a".data, [], "b".data⟩ := by
  have h1 : get_mlflow_model_info_scan
      (get_server_tags (some .MLFLOW) (some ⟨"a".data, [], "b".data⟩))
      "j".data = .error (.valueError unpackMsg) := by rfl
  exact ⟨h1, fun h => Except.noConfusion (h1.symm.trans h)⟩

/-- Claim C4: for every tag list containing two or more server-type tags
(in a fixed order), `get_inference_server_type` deterministically returns
the type carried by the first server-type tag in list order, ignoring
the later conflicting one (and anything after it). -/
theorem first_server_type_tag_wins (pre mid post : List Str)
    (t1 t2 : InferenceServerType) (jid : Str)
    (hpre : ∀ tag ∈ pre, containsSub tag serverTypePrefix = false) :
    get_inference_server_type
        (pre ++ (serverTypePrefix ++ t1.value)
          :: (mid ++ (serverTypePrefix ++ t2.value) :: post)) jid
      = .ok t1 := by
  induction pre with
  | nil => cases t1 <;> rfl
  | cons tag pre' ih =>
    have htag := hpre tag (List.mem_cons_self tag pre')
    have hpre' : ∀ x ∈ pre', containsSub x serverTypePrefix = false :=
      fun x hx => hpre x (List.mem_cons_of_mem tag hx)
    rw [List.cons_append, type_scan_skip tag _ jid htag]
    exact ih hpre'

/-- Witness for C4: with the ownership tag in front, a Triton
server-type tag followed by a conflicting MLFlow server-type tag decodes
to Triton. -/
theorem first_server_type_tag_wins_witness :
    get_inference_server_type
        ([ownershipTag] ++ (serverTypePrefix ++ InferenceServerType.TRITON.value)
          :: ([] ++ (serverTypePrefix ++ InferenceServerType.MLFLOW.value) :: []))
        "job-y".data
      = .ok .TRITON :=
  first_server_type_tag_wins [ownershipTag] [] [] .TRITON .MLFLOW "job-y".data
    (by intro tag htag; simp at htag; subst htag; decide)

/-- Every failure of the tag-type decode is a Python `ValueError` (the
missing-tag raise, the two-element unpack, and the enum construction all
raise `ValueError`), so the `except ValueError` in the listing loop
covers every decode failure. -/
theorem type_decode_error_is_valueError (tags : List Str) (jid : Str)
    (e : PyExc) (h : get_inference_server_type tags jid = .error e) :
    ∃ msg, e = .valueError msg := by
  induction tags with
  | nil =>
    simp only [get_inference_server_type] at h
    exact ⟨_, (Except.error.inj h).symm⟩
  | cons tag rest ih =>
    simp only [get_inference_server_type] at h
    by_cases hc : containsSub tag serverTypePrefix = true
    · rw [if_pos hc] at h
      split at h
      · split at h
        · exact absurd h (by simp)
        · exact ⟨_, (Except.error.inj h).symm⟩
      · exact ⟨_, (Except.error.inj h).symm⟩
    · rw [if_neg hc] at h
      exact ih h

/-- Claim C3: for every sequence of jobs returned by the fabric query,
the listing returns normally (never raises) and contains exactly those
jobs whose tags decode to a known server type, each paired with its
decoded type, in order; jobs whose tags fail to decode are dropped
(after a logged warning). -/
theorem listing_filters_bad_jobs (jobs : List JobDescription) :
    list_active_inference_servers jobs
      = .ok (jobs.filterMap (fun j =>
          match get_inference_server_type j.tags j.id with
          | .ok t => some ⟨j, t⟩
          | .error _ => none)) := by
  induction jobs with
  | nil => rfl
  | cons j rest ih =>
    cases hd : get_inference_server_type j.tags j.id with
    | ok t =>
      simp only [list_active_inference_servers, hd, ih, List.filterMap_cons]
    | error e =>
      obtain ⟨msg, rfl⟩ := type_decode_error_is_valueError j.tags j.id e hd
      simp only [list_active_inference_servers, hd, ih, List.filterMap_cons]

theorem pollFrom_none_of_allPending (statuses : Nat → JobStatusM)
    (hall : ∀ k, (statuses k).isPending = true) :
    ∀ (fuel i : Nat), pollFrom statuses i fuel = none := by
  intro fuel
  induction fuel with
  | zero => intro i; simp [pollFrom, hall i]
  | succ n ih => intro i; simp [pollFrom, hall i, ih (i + 1)]

theorem pollFrom_some_of_exit (statuses : Nat → JobStatusM) :
    ∀ (j i : Nat), (statuses (i + j)).isPending = false →
      ∃ s, pollFrom statuses i j = some s := by
  intro j
  induction j with
  | zero =>
    intro i h
    refine ⟨statuses i, ?_⟩
    simp only [Nat.add_zero] at h
    simp [pollFrom, h]
  | succ n ih =>
    intro i h
    by_cases hp : (statuses i).isPending = true
    · have := ih (i + 1) (by
        have : i + 1 + n = i + (n + 1) := by omega
        rw [this]; exact h)
      obtain ⟨s, hs⟩ := this
      exact ⟨s, by simp [pollFrom, hp, hs]⟩
    · have hp' : (statuses i).isPending = false := by
        cases hh : (statuses i).isPending
        · rfl
        · exact absurd hh hp
      exact ⟨statuses i, by simp [pollFrom, hp']⟩

theorem pollFrom_first_exit (statuses : Nat → JobStatusM) :
    ∀ (k i : Nat), (statuses (i + k)).isPending = false →
      (∀ j, j < k → (statuses (i + j)).isPending = true) →
      pollFrom statuses i k = some (statuses (i + k)) := by
  intro k
  induction k with
  | zero =>
    intro i h _
    simp only [Nat.add_zero] at h
    simp [pollFrom, h]
  | succ n ih =>
    intro i h hbefore
    have hp : (statuses i).isPending = true := by
      have := hbefore 0 (Nat.succ_pos n)
      simpa using this
    have hrec := ih (i + 1)
      (by have : i + 1 + n = i + (n + 1) := by omega
          rw [this]; exact h)
      (by intro j hj
          have : i + 1 + j = i + (j + 1) := by omega
          rw [this]; exact hbefore (j + 1) (by omega))
    have heq : i + 1 + n = i + (n + 1) := by omega
    rw [heq] at hrec
    simp [pollFrom, hp, hrec]

/-- Claim C7: for both deployment paths, after successful submission the
orchestrator polls the job status and reports success exactly at the
first poll at which the job is no longer pending; the loop has no
deadline, so it produces an answer (under some fuel) if and only if the
status stream eventually leaves the pending state.  (The model contains
no check of the HTTP endpoint: leaving the pending state is the entire
success condition.) -/
theorem polling_terminates_iff_leaves_pending (statuses : Nat → JobStatusM) :
    ((∃ fuel s, pollFrom statuses 0 fuel = some s)
      ↔ ∃ k, (statuses k).isPending = false)
    ∧ (∀ k, (statuses k).isPending = false →
        (∀ j, j < k → (statuses j).isPending = true) →
        pollFrom statuses 0 k = some (statuses k))
    ∧ (∀ job fuel, deploy_triton_server (.started job statuses) fuel
        = (pollFrom statuses 0 fuel).map (fun _ => .ok (some job)))
    ∧ (∀ job fuel, deploy_mlflow_job (.started job statuses) fuel
        = (pollFrom statuses 0 fuel).map (fun _ => .ok ())) := by
  refine ⟨⟨?_, ?_⟩, ?_, ?_, ?_⟩
  · rintro ⟨fuel, s, hs⟩
    by_contra hno
    push_neg at hno
    have hall : ∀ k, (statuses k).isPending = true := by
      intro k
      cases hh : (statuses k).isPending
      · exact absurd hh (hno k)
      · rfl
    rw [pollFrom_none_of_allPending statuses hall fuel 0] at hs
    exact Option.noConfusion hs
  · rintro ⟨k, hk⟩
    obtain ⟨s, hs⟩ := pollFrom_some_of_exit statuses k 0 (by simpa using hk)
    exact ⟨k, s, hs⟩
  · intro k hk hbefore
    have := pollFrom_first_exit statuses k 0 (by simpa using hk)
      (by intro j hj; simpa using hbefore j hj)
    simpa using this
  · intro job fuel; rfl
  · intro job fuel; rfl

/-- Witness for C7: a stream pending at poll 0 and running from poll 1
on leaves the pending state, the loop returns `running` at the first
non-pending poll, and both deployment paths report accordingly. -/
theorem polling_terminates_iff_leaves_pending_witness :
    pollFrom (fun k => if k = 0 then .pending else .running) 0 1
      = some .running :=
  (polling_terminates_iff_leaves_pending
      (fun k => if k = 0 then .pending else .running)).2.1 1
    (by decide) (by
      intro j hj
      have hj0 : j = 0 := by omega
      subst hj0
      decide)

/-- Claim C5: when the fabric rejects the submission with the
name-collision `IllegalArgumentError`, `_deploy_triton_server` displays
the collision message and returns a "no server" result (`None`); no
exception escapes the call, under any poll budget. -/
theorem deploy_server_name_collision_returns_none (msg : Str) (fuel : Nat) :
    deploy_triton_server (.illegalArgument msg) fuel = some (.ok none) := rfl

/-- Claim C6: deploying a model against a multi-model server whose job
container environment lacks `TRITON_MODEL_REPO` fails with the
structural `KeyError` raised while resolving the server configuration
(inside the leading assert of the context manager), with the process
state returned untouched — in particular the network-call counter is
unchanged, i.e. the failure happens before any network call. -/
theorem deploy_model_missing_repo_fails_structurally (w : ConnectorWorld)
    (job : JobDescription) (deploymentName modelUri flavor : Str)
    (s : PyState)
    (h : envLookup job.containerEnv TRITON_MODEL_REPO_key = none) :
    MLFlowConnector_deploy_triton w job deploymentName modelUri flavor s
      = .error (.keyError TRITON_MODEL_REPO_key, s) := by
  simp only [MLFlowConnector_deploy_triton, set_triton_server_cofig,
    model_repository_path, h]

/-- Witness for C6: a concrete server job with no `TRITON_MODEL_REPO` in
its container environment makes the deployment fail with the `KeyError`
and leave the state (zero network calls) unchanged. -/
theorem deploy_model_missing_repo_fails_structurally_witness :
    MLFlowConnector_deploy_triton
        ⟨fun _ => true, fun _ _ _ => .ok []⟩
        ⟨"job-2".data, none, [], [], some "h".data, none, some 8000⟩
        "dep".data "models:/m/production".data "onnx".data
        ⟨⟨none, none⟩, 0⟩
      = .error (.keyError TRITON_MODEL_REPO_key, ⟨⟨none, none⟩, 0⟩) :=
  deploy_model_missing_repo_fails_structurally
    ⟨fun _ => true, fun _ _ _ => .ok []⟩
    ⟨"job-2".data, none, [], [], some "h".data, none, some 8000⟩
    "dep".data "models:/m/production".data "onnx".data
    ⟨⟨none, none⟩, 0⟩ (by rfl)

/-- The concrete server job used for the C1 evaluation: repository
`/repo`, internal hostname `h`, management port 8000. -/
def jobW : JobDescription :=
  ⟨"job-1".data, some "srv".data, [],
    [(TRITON_MODEL_REPO_key, "/repo".data)], some "h".data, none, some 8000⟩

/-- Claim C1 (evaluation at the failing input): with prior ambient
configuration `TRITON_URL=http://prior:1`, `TRITON_MODEL_REPO=/old` and
an action that raises `RuntimeError`, `set_triton_server_cofig`
propagates the exception with the freshly installed values
(`http://h:8000`, `/repo`) still in the environment: because the
generator has no `try/finally`, the restoration code after `yield` never
runs on the raising path, contradicting the guarantee that the prior
ambient configuration is restored on every exit path. -/
theorem restore_skipped_on_raise :
    set_triton_server_cofig jobW (fun _ => true)
        (fun s1 => .error (.runtimeError "boom".data, s1))
        ⟨⟨some "http://prior:1".data, some "/old".data⟩, 0⟩
      = .error (.runtimeError "boom".data,
          ⟨⟨some "http://h:8000".data, some "/repo".data⟩, 0⟩)
    ∧ (⟨some "http://h:8000".data, some "/repo".data⟩ : PyEnv)
        ≠ ⟨some "http://prior:1".data, some "/old".data⟩ := by
  exact ⟨by rfl, by decide⟩

/-- Claim C10: on the normal (non-raising) exit path of
`set_triton_server_cofig` (here: an action that returns the state it was
given), each of the two ambient variables is restored to its prior value
when that prior was truthy and popped otherwise: a prior `TRITON_URL` or
`TRITON_MODEL_REPO` that was the empty string is treated the same as an
absent one — removed from the environment rather than restored to the
empty string — while a non-empty prior value of either variable is
restored exactly. -/
theorem empty_prior_config_treated_as_absent (job : JobDescription)
    (pathExists : Str → Bool) (s : PyState) (repo url : Str)
    (hrepo : envLookup job.containerEnv TRITON_MODEL_REPO_key = some repo)
    (hex : pathExists repo = true)
    (hurl : tritonUrlOf job = .ok url) :
    set_triton_server_cofig job pathExists (fun t => .ok t) s
      = .ok ⟨⟨(if pyTruthy s.env.tritonUrl then s.env.tritonUrl else none),
              (if pyTruthy s.env.tritonModelRepo then s.env.tritonModelRepo
               else none)⟩,
             s.netCalls⟩
    ∧ (s.env.tritonUrl = some [] →
        (if pyTruthy s.env.tritonUrl then s.env.tritonUrl else none) = none)
    ∧ (s.env.tritonModelRepo = some [] →
        (if pyTruthy s.env.tritonModelRepo then s.env.tritonModelRepo
         else none) = none)
    ∧ (∀ v, v ≠ [] → s.env.tritonUrl = some v →
        (if pyTruthy s.env.tritonUrl then s.env.tritonUrl else none) = some v)
    ∧ (∀ v, v ≠ [] → s.env.tritonModelRepo = some v →
        (if pyTruthy s.env.tritonModelRepo then s.env.tritonModelRepo
         else none) = some v) := by
  obtain ⟨⟨su, sr⟩, sn⟩ := s
  refine ⟨?_, ?_, ?_, ?_, ?_⟩
  · cases hsu : pyTruthy su <;> cases hsr : pyTruthy sr <;>
      simp [set_triton_server_cofig, model_repository_path, hrepo, hex, hurl,
        restoreVar, hsu, hsr]
  · intro hu
    simp only at hu
    subst hu
    simp [pyTruthy]
  · intro hr
    simp only at hr
    subst hr
    simp [pyTruthy]
  · intro v hv hu
    simp only at hu
    subst hu
    simp [pyTruthy, hv]
  · intro v hv hr
    simp only at hr
    subst hr
    simp [pyTruthy, hv]

/-- Witness for C10: with both prior `TRITON_URL` and
`TRITON_MODEL_REPO` equal to the empty string, a non-raising pass
through the context manager leaves both variables absent instead of
restoring the empty strings. -/
theorem empty_prior_config_treated_as_absent_witness :
    set_triton_server_cofig jobW (fun _ => true) (fun t => .ok t)
        ⟨⟨some [], some []⟩, 0⟩
      = .ok ⟨⟨none, none⟩, 0⟩ :=
  (empty_prior_config_treated_as_absent jobW (fun _ => true)
      ⟨⟨some [], some []⟩, 0⟩ "/repo".data "http://h:8000".data
      (by rfl) rfl (by rfl)).1

/-- Counterexample to C8 as stated: for the model (m, Production) the
single-model serving command references `models:/m/production`
(lower-cased stage) while the multi-model registration passes the
`ModelStage` URI `models:/m/Production` — not the identical string. -/
theorem registry_locator_cex :
    mlflow_serve_locator "m".data "Production".data
      ≠ model_stage_uri "m".data "Production".data := by decide

/-- Claim C8 (amended): the two deployment backends receive the same
registry locator string `models:/<name>/<stage>` exactly when the stage
is already lower-case; in general the single-model command uses
`models:/<name>/<stage.lower()>` while the multi-model registration
passes `models:/<name>/<stage>` unchanged. -/
theorem registry_locator_agreement (name stage : Str)
    (h : pyLower stage = stage) :
    mlflow_serve_locator name stage = model_stage_uri name stage := by
  simp [mlflow_serve_locator, model_stage_uri, h]

/-- Witness for C8 (amended): for the lower-case stage `production` both
backends receive the identical locator. -/
theorem registry_locator_agreement_witness :
    mlflow_serve_locator "m".data "production".data
      = model_stage_uri "m".data "production".data :=
  registry_locator_agreement "m".data "production".data (by decide)

/-- Counterexample to C9 as stated: a `TypeError` whose message does not
contain the known join() pattern is caught by the `except TypeError`
branch and nothing is displayed: the failure goes unreported (the only
message shown is the initial info line). -/
theorem unreported_typeerror_cex :
    deploy_triton_report "models:/m/Production".data
        (.error (.typeError "boom".data))
      = [.info ("Deploying ".data ++ "models:/m/Production".data)]
    ∧ (deploy_triton_report "models:/m/Production".data
        (.error (.typeError "boom".data))).any DisplayMsg.isError = false := by
  exact ⟨by rfl, by rfl⟩

/-- Claim C9 (amended): every failure of the registration call is
reported — a matching `TypeError` as the distinct flavor-mismatch error
and every non-`TypeError` exception through the catch-all — except a
`TypeError` whose message lacks the join() pattern, which is silently
swallowed. -/
theorem registration_failures_reported (u : Str) (e : PyExc) :
    (e.isTypeError = false →
      (deploy_triton_report u (.error e)).any DisplayMsg.isError = true)
    ∧ (∀ msg, e = .typeError msg → containsSub msg joinErrPat = true →
      (deploy_triton_report u (.error e)).any DisplayMsg.isError = true) := by
  constructor
  · intro h
    cases e <;>
      simp_all [deploy_triton_report, DisplayMsg.isError, PyExc.isTypeError]
  · rintro msg rfl hm
    simp [deploy_triton_report, hm, DisplayMsg.isError]

/-- Witness for C9 (amended): a `RuntimeError` is reported through the
catch-all, and a `TypeError` carrying the join() pattern is reported as
the flavor-mismatch error. -/
theorem registration_failures_reported_witness :
    (deploy_triton_report "u".data
        (.error (.runtimeError "x".data))).any DisplayMsg.isError = true
    ∧ (deploy_triton_report "u".data
        (.error (.typeError joinErrPat))).any DisplayMsg.isError = true :=
  ⟨(registration_failures_reported "u".data (.runtimeError "x".data)).1
      (by rfl),
   (registration_failures_reported "u".data (.typeError joinErrPat)).2
      joinErrPat rfl (by decide)⟩
